import Mathlib

/-!
Shallow embedding of the caching-and-fallback data-access layer of the
stock-api repository, together with theorems settling the frozen claims.

Two revisions of the service exist in the repository and are embedded
separately:
* `Part000`  — the revision in `src/unnamed/part_000` (class `Cache` with a
  lazy-expiry `has`, retry loops indexed by `attempt`, a `mock: true`
  fallback marker, and a throwing `getStockSummary`);
* `Svc`      — the revision in `src/src/services/yahooFinanceService.ts`
  (plain record cache `dataCache` keyed by `DATA_REFRESH_INTERVAL`,
  a `while`-loop retry inside `getStockPrice`, and an unmarked mock
  fallback record).

Machine integers do not overflow in the modelled code paths; timestamps are
modelled as `Int` (milliseconds), prices as `ℚ`.  `Math.random()` values are
passed in explicitly as rationals in `[0, 1)`.  Asynchrony collapses: each
upstream call is modelled by its resolved outcome, indexed by attempt number.
-/

namespace StockApi

/-! ### Part000 Cache Store (src/unnamed/part_000, lines 114-156)

`class Cache` with a `Map<string, {data, timestamp}>`.  `has` applies a lazy
expiry check against the global `CACHE_TTL` (strict `>`) and deletes expired
entries; `get` returns the stored data with no expiry check; `set` stores the
value with a fresh timestamp (the `ttl` argument only feeds the `setTimeout`
eviction timer, which is real time and is not part of this lazy model). -/

/-- `CACHE_TTL = 5 * 60 * 1000` (part_000, line 115). -/
def CACHE_TTL : Int := 5 * 60 * 1000

/-- One stored cache item `{ data, timestamp }` (part_000, line 117). -/
structure CEntry (α : Type) where
  data : α
  timestamp : Int
deriving Repr, DecidableEq

/-- The `Map` backing the cache, as an association list. -/
abbrev CacheMap (α : Type) := List (String × CEntry α)

/-- `Map.get` on the backing map. -/
def mapGet {α : Type} (c : CacheMap α) (k : String) : Option (CEntry α) :=
  (c.find? (fun p => p.1 == k)).map (fun p => p.2)

/-- `Map.delete` on the backing map. -/
def mapDelete {α : Type} (c : CacheMap α) (k : String) : CacheMap α :=
  c.filter (fun p => p.1 != k)

/-- `Map.set` on the backing map (overwrite). -/
def mapSet {α : Type} (c : CacheMap α) (k : String) (e : CEntry α) : CacheMap α :=
  (k, e) :: mapDelete c k

/-- `Cache.has` (part_000, lines 123-136): miss when absent; when present and
`now - timestamp > CACHE_TTL`, delete the entry and report a miss; otherwise
report a hit.  Returns the possibly-mutated map alongside the boolean. -/
def cacheHas {α : Type} (now : Int) (c : CacheMap α) (k : String) :
    Bool × CacheMap α :=
  match mapGet c k with
  | none => (false, c)
  | some item =>
    if now - item.timestamp > CACHE_TTL then (false, mapDelete c k)
    else (true, c)

/-- `Cache.get` (part_000, lines 138-140): `this.cache.get(key)?.data`,
with no expiry check. -/
def cacheGet {α : Type} (c : CacheMap α) (k : String) : Option α :=
  (mapGet c k).map (fun e => e.data)

/-- `Cache.set` (part_000, lines 142-149): store `{data, timestamp: Date.now()}`.
The `ttl` argument is consumed only by the `setTimeout` eviction timer. -/
def cacheSet {α : Type} (now : Int) (c : CacheMap α) (k : String) (data : α)
    (ttl : Int := CACHE_TTL) : CacheMap α :=
  mapSet c k ⟨data, now⟩

/-- `Cache.del` (part_000, lines 151-153). -/
def cacheDel {α : Type} (c : CacheMap α) (k : String) : CacheMap α :=
  mapDelete c k

/-! ### Cache keys of getQuoteSummary / getQuoteCombine
(src/src/services/yahooFinanceService.ts, lines 591-600 and 806-818) -/

/-- Cache key of `getQuoteSummary`:
`` `quote_summary_${symbol}_${modules.join('_')}` `` (line 593). -/
def quoteSummaryCacheKey (symbol : String) (modules : List String) : String :=
  "quote_summary_" ++ symbol ++ "_" ++ String.intercalate "_" modules

/-- Cache key of `getQuoteCombine`:
`` `quote_combine_${symbols.join('_')}_${modules.join('_')}` `` (line 809). -/
def quoteCombineCacheKey (symbols : List String) (modules : List String) : String :=
  "quote_combine_" ++ String.intercalate "_" symbols ++ "_" ++
    String.intercalate "_" modules

/-! Helper lemmas about the backing map. -/

theorem mapGet_mapSet_self {α : Type} (c : CacheMap α) (k : String) (e : CEntry α) :
    mapGet (mapSet c k e) k = some e := by
  simp [mapGet, mapSet, List.find?]

theorem string_append_left_cancel {a b c : String} (h : a ++ b = a ++ c) :
    b = c := by
  have hd : (a ++ b).data = (a ++ c).data := by rw [h]
  simp only [String.data_append] at hd
  have hbc : b.data = c.data := List.append_cancel_left hd
  cases b; cases c
  exact congrArg String.mk hbc

/-! ### Service revision (src/src/services/yahooFinanceService.ts) -/

namespace Svc

/-- `DATA_REFRESH_INTERVAL = 60 * 1000` (line 56). -/
def DATA_REFRESH_INTERVAL : Int := 60 * 1000

/-- `interface DataCache { timestamp: number; data: any }` (lines 61-64). -/
structure DCEntry (α : Type) where
  timestamp : Int
  data : α
deriving Repr, DecidableEq

/-- `const dataCache: Record<string, DataCache>` (line 66), as an
association list. -/
abbrev DataCacheMap (α : Type) := List (String × DCEntry α)

/-- Record lookup `dataCache[cacheKey]`. -/
def dcGet {α : Type} (c : DataCacheMap α) (k : String) : Option (DCEntry α) :=
  (c.find? (fun p => p.1 == k)).map (fun p => p.2)

/-- Record assignment `dataCache[cacheKey] = entry`. -/
def dcSet {α : Type} (c : DataCacheMap α) (k : String) (e : DCEntry α) :
    DataCacheMap α :=
  (k, e) :: c.filter (fun p => p.1 != k)

/-- `getCachedOrFreshData` (lines 74-117).  The single call to `fetchFn` is
modelled by its resolved outcome `fetchFn : Except ε α`.  JavaScript
truthiness of the cached value (`cachedData && cachedData.data` in the catch
branch) is modelled by `truthy`; `cachedData.timestamp` is a number, truthy
iff nonzero.  Returns the outcome together with the updated cache. -/
def getCachedOrFreshData {α ε : Type} (truthy : α → Bool)
    (cache : DataCacheMap α) (now : Int) (cacheKey : String)
    (fetchFn : Except ε α) (forceRefresh : Bool := false) :
    Except ε α × DataCacheMap α :=
  let cachedData := dcGet cache cacheKey
  match cachedData with
  | some cd =>
    if forceRefresh = false ∧ cd.timestamp ≠ 0 ∧
        now - cd.timestamp < DATA_REFRESH_INTERVAL then
      (.ok cd.data, cache)
    else
      match fetchFn with
      | .ok freshData => (.ok freshData, dcSet cache cacheKey ⟨now, freshData⟩)
      | .error e =>
        if truthy cd.data then (.ok cd.data, cache) else (.error e, cache)
  | none =>
    match fetchFn with
    | .ok freshData => (.ok freshData, dcSet cache cacheKey ⟨now, freshData⟩)
    | .error e => (.error e, cache)

/-- The fields of `interface YahooQuoteResponse` (lines 26-35) that
`getStockPrice` reads; each is optional in the upstream payload. -/
structure YahooQuote where
  regularMarketPrice : Option ℚ
  regularMarketPreviousClose : Option ℚ
  regularMarketChange : Option ℚ
  regularMarketChangePercent : Option ℚ
  regularMarketVolume : Option ℚ
  marketCap : Option ℚ
deriving Repr, DecidableEq

/-- `interface StockData` (lines 37-46): `symbol`, `price`, `lastUpdated`
are required, the numeric detail fields optional. -/
structure StockData where
  symbol : String
  price : ℚ
  previousClose : Option ℚ
  change : Option ℚ
  changePercent : Option ℚ
  volume : Option ℚ
  marketCap : Option ℚ
  lastUpdated : String
deriving Repr, DecidableEq

/-- The field names defined (not `undefined`) on a `StockData` value; the
three required fields are always defined, an optional field is defined when
it is `some`. -/
def StockData.definedFields (d : StockData) : List String :=
  ["symbol", "price"] ++
  (if d.previousClose.isSome then ["previousClose"] else []) ++
  (if d.change.isSome then ["change"] else []) ++
  (if d.changePercent.isSome then ["changePercent"] else []) ++
  (if d.volume.isSome then ["volume"] else []) ++
  (if d.marketCap.isSome then ["marketCap"] else []) ++
  ["lastUpdated"]

/-- All eight `StockData` field names. -/
def allStockDataFields : List String :=
  ["symbol", "price", "previousClose", "change", "changePercent",
   "volume", "marketCap", "lastUpdated"]

/-- The success-path record of `getStockPrice` (lines 141-150):
`price: quote.regularMarketPrice || 0` (`0` is replaced by `0` by the
JavaScript `||`, so this is `getD 0`), the remaining numeric fields copied
as-is. -/
def toStockData (symbol nowIso : String) (quote : YahooQuote) : StockData :=
  { symbol := symbol
    price := quote.regularMarketPrice.getD 0
    previousClose := quote.regularMarketPreviousClose
    change := quote.regularMarketChange
    changePercent := quote.regularMarketChangePercent
    volume := quote.regularMarketVolume
    marketCap := quote.marketCap
    lastUpdated := nowIso }

/-- Outcome of one `yahooFinance.quote(symbol)` call inside the retry loop:
the promise rejects, resolves with a falsy value, or resolves with a quote. -/
inductive QuoteOutcome (ε : Type) where
  | throwE (e : ε)
  | empty
  | ok (q : YahooQuote)
deriving Repr, DecidableEq

/-- Whether an attempt outcome is a non-success (thrown or empty). -/
def QuoteOutcome.isFail {ε : Type} : QuoteOutcome ε → Bool
  | .ok _ => false
  | _ => true

/-- `maxAttempts = 3` (line 128). -/
def maxAttempts : Nat := 3

/-- The `while (attempts < maxAttempts)` retry loop of `getStockPrice`
(lines 127-171), unrolled on the remaining attempt budget `rem`.
`f attempts` is the outcome of the `attempts`-th `yahooFinance.quote` call.
Returns the loop's outcome (the value, or the thrown
`lastError || new Error(...)`) together with the number of times the wrapped
operation was invoked. -/
def priceFetchGo (f : Nat → QuoteOutcome String) (symbol nowIso : String) :
    Nat → Nat → Option String → Except String StockData × Nat
  | 0, _, lastError =>
    (.error (lastError.getD ("无法获取 " ++ symbol ++ " 的股票价格数据")), 0)
  | rem + 1, attempts, lastError =>
    match f attempts with
    | .ok quote => (.ok (toStockData symbol nowIso quote), 1)
    | .empty =>
      let rest := priceFetchGo f symbol nowIso rem (attempts + 1) lastError
      (rest.1, rest.2 + 1)
    | .throwE e =>
      let rest := priceFetchGo f symbol nowIso rem (attempts + 1) (some e)
      (rest.1, rest.2 + 1)

/-- The `fetchFn` closure passed by `getStockPrice` to
`getCachedOrFreshData` (lines 126-172): run the retry loop with
`attempts = 0` and no recorded error. -/
def priceFetchFn (f : Nat → QuoteOutcome String) (symbol nowIso : String) :
    Except String StockData × Nat :=
  priceFetchGo f symbol nowIso maxAttempts 0 none

/-- The four `Math.random()` draws of the mock-price generator, in call
order: base price, change percent, volume, market cap. -/
structure MockRands where
  rBase : ℚ
  rCp : ℚ
  rVol : ℚ
  rCap : ℚ
deriving Repr, DecidableEq

/-- All four draws lie in `[0, 1)`, the contract of `Math.random()`. -/
def MockRands.inRange (r : MockRands) : Prop :=
  0 ≤ r.rBase ∧ r.rBase < 1 ∧ 0 ≤ r.rCp ∧ r.rCp < 1 ∧
  0 ≤ r.rVol ∧ r.rVol < 1 ∧ 0 ≤ r.rCap ∧ r.rCap < 1

instance : DecidablePred MockRands.inRange := fun r => by
  unfold MockRands.inRange; infer_instance

/-- `generateMockStockPrice` (lines 1409-1454).  The catch branch of
`getStockPrice` (lines 177-220) inlines the identical computation, so both
are modelled by this one function.  The returned object literal defines all
eight `StockData` fields and no others — in particular no marker field. -/
def generateMockStockPrice (symbol nowIso : String) (r : MockRands) : StockData :=
  let bp :=
    match symbol.toUpper with
    | "AAPL" => ((150 : ℚ) + r.rBase * 30, r.rCp * 4 - 2)
    | "MSFT" => (300 + r.rBase * 50, r.rCp * 4 - 2)
    | "GOOGL" => (2500 + r.rBase * 300, r.rCp * 4 - 2)
    | "TSLA" => (800 + r.rBase * 100, r.rCp * 6 - 3)
    | "AMZN" => (3300 + r.rBase * 400, r.rCp * 4 - 2)
    | _ => (100 + r.rBase * 900, r.rCp * 4 - 2)
  let basePrice := bp.1
  let changePercent := bp.2
  let change := basePrice * (changePercent / 100)
  let previousClose := basePrice - change
  { symbol := symbol
    price := basePrice
    previousClose := some previousClose
    change := some change
    changePercent := some changePercent
    volume := some ((((1000000 : ℚ) + r.rVol * 10000000).floor : ℤ) : ℚ)
    marketCap := some (basePrice * (1000000000 + r.rCap * 1000000000))
    lastUpdated := nowIso }

/-- `getStockPrice` (lines 124-222): `getCachedOrFreshData` over the retry
loop under key `` `stock_price_${symbol}` ``; on a thrown error, return the
inline mock record.  A cached `StockData` object is always truthy.  Returns
the resolved record and the updated cache. -/
def getStockPrice (cache : DataCacheMap StockData) (now : Int)
    (nowIso symbol : String) (f : Nat → QuoteOutcome String) (r : MockRands) :
    StockData × DataCacheMap StockData :=
  let fetch := priceFetchFn f symbol nowIso
  match getCachedOrFreshData (fun _ => true) cache now
      ("stock_price_" ++ symbol) fetch.1 false with
  | (.ok v, c) => (v, c)
  | (.error _, c) => (generateMockStockPrice symbol nowIso r, c)

end Svc

/-! ### Part000 revision (src/unnamed/part_000)

This revision imports the adapter as `yahooFinance`, so
`yahooFinance.quoteSummary` is `adaptedQuoteSummary`, which never throws and
returns `{success, quoteSummary|null, error?}`. -/

namespace Part000

/-- A JavaScript value reachable by `extractNumber` (part_000, lines
1021-1043): a plain number, a string (carried as its `parseFloat` result,
`none` when `NaN`), or a `{raw, fmt}` wrapper object.  A truthy, parseable
`fmt` string is carried as its parsed value (`none` covers `fmt` absent,
falsy, or unparseable — all of which fall through identically). -/
inductive JVal where
  | num (q : ℚ)
  | str (parseF : Option ℚ)
  | obj (raw : Option ℚ) (fmtParse : Option ℚ)
deriving Repr, DecidableEq

/-- A JavaScript object, as an association list of properties. -/
abbrev JObj := List (String × JVal)

/-- Property access `o[k]` (`undefined` when absent). -/
def jget (o : JObj) (k : String) : Option JVal :=
  (o.find? (fun p => p.1 == k)).map (fun p => p.2)

/-- `o[k]?.raw` — defined only on the wrapper shape. -/
def jraw : Option JVal → Option ℚ
  | some (.obj (some r) _) => some r
  | _ => none

/-- `o[k]?.fmt && !isNaN(parseFloat(o[k].fmt))`, collapsed to the parsed
value. -/
def jfmtParse : Option JVal → Option ℚ
  | some (.obj _ (some p)) => some p
  | _ => none

/-- `o[k] !== undefined && !isNaN(parseFloat(o[k]))`: a number parses to
itself, a string to its `parseFloat`, a wrapper object to `NaN`. -/
def jparseFloat : Option JVal → Option ℚ
  | some (.num q) => some q
  | some (.str (some p)) => some p
  | _ => none

/-- `'regularMarket' + key.charAt(0).toUpperCase() + key.slice(1)`
(part_000, line 1038). -/
def marketKey (key : String) : String :=
  "regularMarket" ++ key.capitalize

/-- `extractNumber(obj, key)` (part_000, lines 1021-1043): `raw`, then
parseable `fmt`, then the value itself, then the `regularMarket`-prefixed
`raw`, else `0`.  A missing or non-object `obj` yields `0`. -/
def extractNumber (obj : Option JObj) (key : String) : ℚ :=
  match obj with
  | none => 0
  | some o =>
    match jraw (jget o key) with
    | some r => r
    | none =>
      match jfmtParse (jget o key) with
      | some p => p
      | none =>
        match jparseFloat (jget o key) with
        | some p => p
        | none =>
          match jraw (jget o (marketKey key)) with
          | some r => r
          | none => 0

/-- The two modules `getStockPrice` requests from the adapted
`quoteSummary` (part_000, line 938). -/
structure P0QuoteSummary where
  price : Option JObj
  summaryDetail : Option JObj
deriving Repr, DecidableEq

/-- The adapted `quoteSummary` result `{success, quoteSummary|null}` as
`getStockPrice` inspects it (part_000, line 942). -/
structure P0PriceOutcome where
  success : Bool
  quoteSummary : Option P0QuoteSummary
deriving Repr, DecidableEq

/-- An attempt fails when `!result.success || !result.quoteSummary` (throw
`'获取股票价格信息失败'`) or, past that check, `!price` (throw
`'价格数据不存在'`). -/
def P0PriceOutcome.isFail (o : P0PriceOutcome) : Bool :=
  match o.success, o.quoteSummary with
  | true, some qs => qs.price.isNone
  | _, _ => true

/-- The `stockPrice` record built on success (part_000, lines 970-981).
All numeric fields go through `extractNumber`; `previousClose` is the
JavaScript `||` of the two extractions (left value unless it is falsy,
i.e. `0`). -/
structure P0StockPrice where
  symbol : String
  price : ℚ
  previousClose : ℚ
  change : ℚ
  changePercent : ℚ
  volume : ℚ
  marketCap : ℚ
  lastUpdated : String
deriving Repr, DecidableEq

/-- Build the success record (part_000, lines 970-981). -/
def buildStockPrice (symbol nowIso : String) (qs : P0QuoteSummary) :
    P0StockPrice :=
  let price := qs.price
  let summaryDetail := qs.summaryDetail
  { symbol := symbol
    price := extractNumber price "regularMarketPrice"
    previousClose :=
      let a := extractNumber summaryDetail "previousClose"
      if a ≠ 0 then a else extractNumber price "regularMarketPreviousClose"
    change := extractNumber price "regularMarketChange"
    changePercent := extractNumber price "regularMarketChangePercent"
    volume := extractNumber price "regularMarketVolume"
    marketCap := extractNumber price "marketCap"
    lastUpdated := nowIso }

/-- What `getStockPrice` resolves with: a `stockPrice` spread together with
`fromCache` (cache hit / fresh fetch) or `mock: true` (fallback); a field
that the corresponding object literal does not define is `none`. -/
structure P0StockResult where
  symbol : String
  price : ℚ
  previousClose : ℚ
  change : ℚ
  changePercent : ℚ
  volume : ℚ
  marketCap : ℚ
  lastUpdated : String
  fromCache : Option Bool
  mock : Option Bool
deriving Repr, DecidableEq

/-- `{ ...cache.get(cacheKey), fromCache: true }` (part_000, line 925). -/
def fromCacheResult (sp : P0StockPrice) : P0StockResult :=
  { symbol := sp.symbol, price := sp.price, previousClose := sp.previousClose
    change := sp.change, changePercent := sp.changePercent
    volume := sp.volume, marketCap := sp.marketCap
    lastUpdated := sp.lastUpdated, fromCache := some true, mock := none }

/-- `{ ...stockPrice, fromCache: false }` (part_000, line 986). -/
def freshResult (sp : P0StockPrice) : P0StockResult :=
  { symbol := sp.symbol, price := sp.price, previousClose := sp.previousClose
    change := sp.change, changePercent := sp.changePercent
    volume := sp.volume, marketCap := sp.marketCap
    lastUpdated := sp.lastUpdated, fromCache := some false, mock := none }

/-- The `mockStockPrice` object built after exhaustion (part_000, lines
1001-1015): `basePrice = 150 + random()*50`, `changePercent = random()*4-2`,
a `mock: true` marker and no `fromCache` field. -/
def mockStockPrice (symbol nowIso : String) (r : Svc.MockRands) :
    P0StockResult :=
  let basePrice := (150 : ℚ) + r.rBase * 50
  let changePercent := r.rCp * 4 - 2
  let change := basePrice * (changePercent / 100)
  { symbol := symbol
    price := basePrice
    previousClose := basePrice - change
    change := change
    changePercent := changePercent
    volume := ((((1000000 : ℚ) + r.rVol * 10000000).floor : ℤ) : ℚ)
    marketCap := basePrice * (1000000000 + r.rCap * 1000000000)
    lastUpdated := nowIso
    fromCache := none
    mock := some true }

/-- The `for (attempt = 1; attempt <= retryCount; attempt++)` loop of
`getStockPrice` (part_000, lines 931-996), unrolled on the remaining budget.
`f attempt` is the adapted `quoteSummary` outcome of attempt `attempt`
(1-based).  Returns the in-loop result (success record and updated cache, or
`none` after exhaustion), the number of upstream invocations, and the final
`lastError`. -/
def priceLoop (f : Nat → P0PriceOutcome) (symbol nowIso : String) (now : Int)
    (cache : CacheMap P0StockPrice) (cacheKey : String) :
    Nat → Nat → Option String →
    Option (P0StockResult × CacheMap P0StockPrice) × Nat × Option String
  | 0, _, lastError => (none, 0, lastError)
  | rem + 1, attempt, lastError =>
    let result := f attempt
    match result.success, result.quoteSummary with
    | true, some qs =>
      match qs.price with
      | some _ =>
        let sp := buildStockPrice symbol nowIso qs
        (some (freshResult sp, cacheSet now cache cacheKey sp CACHE_TTL),
         1, lastError)
      | none =>
        let rest := priceLoop f symbol nowIso now cache cacheKey rem
          (attempt + 1) (some "价格数据不存在")
        (rest.1, rest.2.1 + 1, rest.2.2)
    | _, _ =>
      let rest := priceLoop f symbol nowIso now cache cacheKey rem
        (attempt + 1) (some "获取股票价格信息失败")
      (rest.1, rest.2.1 + 1, rest.2.2)

/-- `getStockPrice` (part_000, lines 920-1018): cache check through
`Cache.has`/`Cache.get` (the `true, none` match arm is unreachable, since
`has` reports a hit only when the entry is present), then the retry loop,
then the mock fallback, which is returned WITHOUT being cached.  The third
component counts upstream invocations. -/
def getStockPrice (cache : CacheMap P0StockPrice) (now : Int)
    (nowIso symbol : String) (f : Nat → P0PriceOutcome) (r : Svc.MockRands)
    (retryCount : Nat := 3) :
    P0StockResult × CacheMap P0StockPrice × Nat :=
  let cacheKey := "stock_price_" ++ symbol
  let hasRes := cacheHas now cache cacheKey
  match hasRes.1, cacheGet hasRes.2 cacheKey with
  | true, some sp => (fromCacheResult sp, hasRes.2, 0)
  | _, _ =>
    match priceLoop f symbol nowIso now hasRes.2 cacheKey retryCount 1 none with
    | (some (res, c), cnt, _) => (res, c, cnt)
    | (none, cnt, _) => (mockStockPrice symbol nowIso r, hasRes.2, cnt)

/-- The adapted `quoteSummary` result as `getStockSummary` inspects it
(part_000, line 1179); the summary payload is opaque here. -/
structure P0SummaryOutcome (σ : Type) where
  success : Bool
  quoteSummary : Option σ
deriving Repr, DecidableEq

/-- The summary object built on success (part_000, lines 1188-1195):
`{symbol, ...quoteSummary, metadata: {retrievedAt, source}}`. -/
structure P0Summary (σ : Type) where
  symbol : String
  quoteSummary : σ
  retrievedAt : String
deriving Repr, DecidableEq

/-- The retry loop of `getStockSummary` (part_000, lines 1146-1210):
failure when `!result.success || !result.quoteSummary`
(throw `'获取股票摘要信息失败'`, recorded in `lastError`). -/
def summaryLoop {σ : Type} (f : Nat → P0SummaryOutcome σ)
    (symbol nowIso : String) (now : Int) (cache : CacheMap (P0Summary σ))
    (cacheKey : String) :
    Nat → Nat → Option String →
    Option ((P0Summary σ × Bool) × CacheMap (P0Summary σ)) × Nat × Option String
  | 0, _, lastError => (none, 0, lastError)
  | rem + 1, attempt, lastError =>
    let result := f attempt
    match result.success, result.quoteSummary with
    | true, some qs =>
      let summary : P0Summary σ :=
        { symbol := symbol, quoteSummary := qs, retrievedAt := nowIso }
      (some ((summary, false), cacheSet now cache cacheKey summary CACHE_TTL),
       1, lastError)
    | _, _ =>
      let rest := summaryLoop f symbol nowIso now cache cacheKey rem
        (attempt + 1) (some "获取股票摘要信息失败")
      (rest.1, rest.2.1 + 1, rest.2.2)

/-- `getStockSummary` (part_000, lines 1135-1216): cache check, retry loop,
and after exhaustion `throw new Error(`无法获取${symbol}的股票摘要信息`)` —
no synthetic summary is built.  The resolved value pairs the summary with
its `fromCache` flag; the third component counts upstream invocations. -/
def getStockSummary {σ : Type} (cache : CacheMap (P0Summary σ)) (now : Int)
    (nowIso symbol : String) (f : Nat → P0SummaryOutcome σ)
    (retryCount : Nat := 3) :
    Except String (P0Summary σ × Bool) × CacheMap (P0Summary σ) × Nat :=
  let cacheKey := "stock_summary_" ++ symbol
  let hasRes := cacheHas now cache cacheKey
  match hasRes.1, cacheGet hasRes.2 cacheKey with
  | true, some s => (.ok (s, true), hasRes.2, 0)
  | _, _ =>
    match summaryLoop f symbol nowIso now hasRes.2 cacheKey retryCount 1 none with
    | (some (res, c), cnt, _) => (.ok res, c, cnt)
    | (none, cnt, _) =>
      (.error ("无法获取" ++ symbol ++ "的股票摘要信息"), hasRes.2, cnt)

end Part000

/-! ### Upstream adapter (src/src/utils/yahooFinanceAdapter.ts) -/

namespace Adapter

/-- `VALID_MODULES` (lines 11-41). -/
def VALID_MODULES : List String :=
  ["assetProfile", "summaryProfile", "summaryDetail", "price",
   "incomeStatementHistory", "incomeStatementHistoryQuarterly",
   "balanceSheetHistory", "balanceSheetHistoryQuarterly",
   "cashflowStatementHistory", "cashflowStatementHistoryQuarterly",
   "defaultKeyStatistics", "financialData", "calendarEvents", "secFilings",
   "recommendationTrend", "upgradeDowngradeHistory", "institutionOwnership",
   "fundOwnership", "majorDirectHolders", "majorHoldersBreakdown",
   "insiderTransactions", "insiderHolders", "netSharePurchaseActivity",
   "earnings", "earningsHistory", "earningsTrend", "industryTrend",
   "indexTrend", "sectorTrend"]

/-- The `{success, error?, quoteSummary}` shape `adaptedQuoteSummary`
returns (lines 141-163); a field the object literal does not define is
`none`. -/
structure AdaptedQsResult (π : Type) where
  success : Bool
  error : Option String
  quoteSummary : Option π
deriving Repr, DecidableEq

/-- `adaptedQuoteSummary` (lines 134-164).  The single
`yahooFinance.quoteSummary` call is modelled by `upstream`, applied to the
filtered module list; the boolean records whether upstream was contacted. -/
def adaptedQuoteSummary {π : Type} (symbol : String) (modules : List String)
    (upstream : String → List String → Except String π) :
    AdaptedQsResult π × Bool :=
  let validatedModules := modules.filter (fun m => VALID_MODULES.contains m)
  if validatedModules.length = 0 then
    ({ success := false, error := some "无有效模块名称", quoteSummary := none },
     false)
  else
    match upstream symbol validatedModules with
    | .ok result =>
      ({ success := true, error := none, quoteSummary := some result }, true)
    | .error e =>
      ({ success := false, error := some e, quoteSummary := none }, true)

end Adapter

/-! ### generateMockChartData (src/src/services/yahooFinanceService.ts,
lines 409-583) -/

namespace MockChart

/-- The point count per requested range (lines 411-436). -/
def pointCount (range : String) : Nat :=
  match range with
  | "1d" => 78
  | "5d" => 195
  | "1mo" => 22
  | "3mo" => 65
  | "6mo" => 125
  | "1y" => 250
  | "5y" => 260
  | _ => 30

/-- The timestamp stride per interval, in seconds (lines 498-516). -/
def intervalStride (interval : String) : Int :=
  match interval with
  | "5m" => 5 * 60
  | "15m" => 15 * 60
  | "1h" => 60 * 60
  | "1d" => 24 * 60 * 60
  | "1wk" => 7 * 24 * 60 * 60
  | _ => 24 * 60 * 60

/-- `basePrice` per symbol (lines 468-469). -/
def chartBasePrice (symbol : String) : ℚ :=
  if symbol == "AAPL" then 150
  else if symbol == "GOOGL" then 2500
  else if symbol == "MSFT" then 300
  else 800

/-- `volatility = 0.02` (line 471). -/
def volatility : ℚ := 2 / 100

/-- `trend = 0.001` (line 472). -/
def trend : ℚ := 1 / 1000

/-- The four `Math.random()` draws of one loop iteration, in call order:
the price change, the high factor, the low factor, the volume factor. -/
structure ChartRands where
  rChange : ℚ
  rHigh : ℚ
  rLow : ℚ
  rVol : ℚ
deriving Repr, DecidableEq

/-- All four draws lie in `[0, 1)`. -/
def ChartRands.inRange (r : ChartRands) : Prop :=
  0 ≤ r.rChange ∧ r.rChange < 1 ∧ 0 ≤ r.rHigh ∧ r.rHigh < 1 ∧
  0 ≤ r.rLow ∧ r.rLow < 1 ∧ 0 ≤ r.rVol ∧ r.rVol < 1

instance : DecidablePred ChartRands.inRange := fun r => by
  unfold ChartRands.inRange; infer_instance

/-- One generated data point (one iteration pushes once onto each of the
`timestamps`/`open`/`close`/`high`/`low`/`volume` arrays). -/
structure MockChartPoint where
  timestamp : Int
  openP : ℚ
  close : ℚ
  high : ℚ
  low : ℚ
  volume : ℚ
deriving Repr, DecidableEq

/-- One iteration of the generation loop (lines 493-547): timestamp pushed
before the stride is added; `change` computed from the incoming price;
the price updated, clamped below at `1`; `open = price - change/2` on the
clamped price; `high`/`low` scale `max`/`min` of open and close by
`1 ± random()*0.01`; volume floors a product.  Returns the point, the new
current price and the new current timestamp. -/
def mockChartStep (basePrice : ℚ) (interval : String) (p : ℚ) (ts : Int)
    (r : ChartRands) : MockChartPoint × ℚ × Int :=
  let change := (r.rChange * 2 - 1) * volatility * p + p * trend
  let p1 := p + change
  let p2 := if p1 < 1 then 1 else p1
  let openPrice := p2 - change / 2
  let high := max openPrice p2 * (1 + r.rHigh * (1 / 100))
  let low := min openPrice p2 * (1 - r.rLow * (1 / 100))
  let volume :=
    (((basePrice * 10000 * (1 + |change / p2| * 10) * (1 / 2 + r.rVol)).floor
      : ℤ) : ℚ)
  ({ timestamp := ts, openP := openPrice, close := p2, high := high,
     low := low, volume := volume },
   p2, ts + intervalStride interval)

/-- The `for (i = 0; i < pointCount; i++)` loop, with `rands i` the draws of
iteration `i`. -/
def mockChartGo (basePrice : ℚ) (interval : String)
    (rands : Nat → ChartRands) :
    Nat → Nat → ℚ → Int → List MockChartPoint
  | 0, _, _, _ => []
  | n + 1, i, p, ts =>
    let step := mockChartStep basePrice interval p ts (rands i)
    step.1 :: mockChartGo basePrice interval rands n (i + 1) step.2.1 step.2.2

/-- The points generated by `generateMockChartData` (lines 409-583):
`startPrice = basePrice - basePrice*0.2*random()`, then the loop.
`startTs` is the epoch-second start derived from the range and `r0` the
start-price draw. -/
def generateMockChartPoints (symbol interval range : String) (startTs : Int)
    (r0 : ℚ) (rands : Nat → ChartRands) : List MockChartPoint :=
  let basePrice := chartBasePrice symbol
  let startPrice := basePrice - basePrice * (1 / 5) * r0
  mockChartGo basePrice interval rands (pointCount range) 0 startPrice startTs

/-- The parallel arrays packaged under
`chart.result[0].{timestamp, indicators.quote[0]}` (lines 550-582). -/
structure MockChartArrays where
  timestamp : List Int
  openA : List ℚ
  close : List ℚ
  high : List ℚ
  low : List ℚ
  volume : List ℚ
deriving Repr, DecidableEq

/-- `generateMockChartData`'s parallel arrays: each loop iteration pushes
exactly one element onto each array, so the arrays are the projections of
the generated point list. -/
def generateMockChartData (symbol interval range : String) (startTs : Int)
    (r0 : ℚ) (rands : Nat → ChartRands) : MockChartArrays :=
  let pts := generateMockChartPoints symbol interval range startTs r0 rands
  { timestamp := pts.map (fun pt => pt.timestamp)
    openA := pts.map (fun pt => pt.openP)
    close := pts.map (fun pt => pt.close)
    high := pts.map (fun pt => pt.high)
    low := pts.map (fun pt => pt.low)
    volume := pts.map (fun pt => pt.volume) }

end MockChart

/-! ## Claim theorems -/

/-- **C1, counterexample.**  The claim predicts that after `set(k, v, ttl)` a
read at `t` with `t - storedAt ≥ ttl` treats the entry as absent and removes
it.  Concretely: store at time `0` with `ttl = CACHE_TTL` and read at
`t = CACHE_TTL` (so `t - storedAt ≥ ttl`); `has` still reports a hit (its
check is the strict `now - timestamp > CACHE_TTL`) and `get` — which never
checks expiry — still returns the stored value.  (At `t = CACHE_TTL + 1`,
`has` does expire the entry but `get` alone still returns it.) -/
theorem c1_lazy_expiry_counterexample :
    CACHE_TTL - 0 ≥ CACHE_TTL ∧
    (cacheHas CACHE_TTL
        (cacheSet 0 ([] : CacheMap Nat) "stock_price_AAPL" 42 CACHE_TTL)
        "stock_price_AAPL").1 = true ∧
    cacheGet (cacheSet 0 ([] : CacheMap Nat) "stock_price_AAPL" 42 CACHE_TTL)
        "stock_price_AAPL" = some 42 ∧
    cacheGet (cacheSet 0 ([] : CacheMap Nat) "stock_price_AAPL" 42 100)
        "stock_price_AAPL" = some 42 := by
  decide

/-- **C1, amended.**  After `set(k, v, ttl)` the entry carries the fresh
timestamp; `has(k)` applies lazy expiry against the fixed global `CACHE_TTL`
(not the per-entry `ttl`, which only feeds the eviction timer) with a strict
comparison — it reports a hit and keeps the entry while
`t - storedAt ≤ CACHE_TTL`, and removes the entry and reports a miss when
`t - storedAt > CACHE_TTL` — while `get(k)` performs no expiry check and
returns the stored value as long as the entry is in the map. -/
theorem c1_cache_lazy_expiry_amended {α : Type} (c : CacheMap α) (k : String)
    (v : α) (ttl t₀ t : Int) :
    (t - t₀ ≤ CACHE_TTL →
      cacheHas t (cacheSet t₀ c k v ttl) k = (true, cacheSet t₀ c k v ttl)) ∧
    (t - t₀ > CACHE_TTL →
      cacheHas t (cacheSet t₀ c k v ttl) k =
        (false, mapDelete (cacheSet t₀ c k v ttl) k)) ∧
    cacheGet (cacheSet t₀ c k v ttl) k = some v := by
  have hg : mapGet (cacheSet t₀ c k v ttl) k = some ⟨v, t₀⟩ :=
    mapGet_mapSet_self _ _ _
  refine ⟨fun h => ?_, fun h => ?_, ?_⟩
  · simp only [cacheHas, hg]
    rw [if_neg (by omega)]
  · simp only [cacheHas, hg]
    rw [if_pos (by omega)]
  · simp [cacheGet, hg]

/-- **C1, witness** for the amended theorem at a concrete store and read. -/
theorem c1_cache_lazy_expiry_amended_witness :
    ((1000 : Int) - 0 ≤ CACHE_TTL ∧
      cacheHas 1000 (cacheSet 0 ([] : CacheMap Nat) "k" 7 CACHE_TTL) "k" =
        (true, cacheSet 0 ([] : CacheMap Nat) "k" 7 CACHE_TTL)) ∧
    ((400000 : Int) - 0 > CACHE_TTL ∧
      cacheHas 400000 (cacheSet 0 ([] : CacheMap Nat) "k" 7 CACHE_TTL) "k" =
        (false, mapDelete (cacheSet 0 ([] : CacheMap Nat) "k" 7 CACHE_TTL) "k")) :=
  ⟨⟨by decide,
    (c1_cache_lazy_expiry_amended ([] : CacheMap Nat) "k" 7 CACHE_TTL 0 1000).1
      (by decide)⟩,
   ⟨by decide,
    (c1_cache_lazy_expiry_amended ([] : CacheMap Nat) "k" 7 CACHE_TTL 0
      400000).2.1 (by decide)⟩⟩

/-- **C5, counterexample.**  `["price", "summaryDetail"]` and
`["summaryDetail", "price"]` are semantically equal module sets differing
only in order, yet `getQuoteSummary` builds different cache keys: modules are
joined in caller order and never sorted. -/
theorem c5_key_order_counterexample :
    List.Perm ["price", "summaryDetail"] ["summaryDetail", "price"] ∧
    quoteSummaryCacheKey "AAPL" ["price", "summaryDetail"] ≠
      quoteSummaryCacheKey "AAPL" ["summaryDetail", "price"] := by
  constructor
  · exact List.Perm.swap _ _ _
  · decide

/-- **C5, amended.**  The cache key of `getQuoteSummary` embeds the module
list joined with `'_'` in caller order (no sorting), so for a fixed symbol
two parameter sets produce the same key exactly when their joined module
strings coincide — reordering a module list changes the key whenever it
changes the joined string. -/
theorem c5_key_determinism_amended (s : String) (m1 m2 : List String) :
    quoteSummaryCacheKey s m1 = quoteSummaryCacheKey s m2 ↔
      String.intercalate "_" m1 = String.intercalate "_" m2 := by
  unfold quoteSummaryCacheKey
  constructor
  · intro h
    exact string_append_left_cancel h
  · intro h
    rw [h]

/-! Supporting lemmas about the service retry loop. -/

theorem priceFetchFn_allFail (f : Nat → Svc.QuoteOutcome String)
    (symbol nowIso : String) (e : Nat → String)
    (hf : ∀ i, i < Svc.maxAttempts → f i = .throwE (e i)) :
    Svc.priceFetchFn f symbol nowIso = (.error (e 2), 3) := by
  have h0 := hf 0 (by decide)
  have h1 := hf 1 (by decide)
  have h2 := hf 2 (by decide)
  simp [Svc.priceFetchFn, Svc.maxAttempts, Svc.priceFetchGo, h0, h1, h2]

theorem svcGetStockPrice_hit_allFail (cache : Svc.DataCacheMap Svc.StockData)
    (now : Int) (nowIso symbol : String) (f : Nat → Svc.QuoteOutcome String)
    (e : Nat → String) (r : Svc.MockRands) (entry : Svc.DCEntry Svc.StockData)
    (hf : ∀ i, i < Svc.maxAttempts → f i = .throwE (e i))
    (hent : Svc.dcGet cache ("stock_price_" ++ symbol) = some entry) :
    Svc.getStockPrice cache now nowIso symbol f r = (entry.data, cache) := by
  have hfetch := priceFetchFn_allFail f symbol nowIso e hf
  have hgc : Svc.getCachedOrFreshData (fun _ => true) cache now
      ("stock_price_" ++ symbol) (Svc.priceFetchFn f symbol nowIso).1 false =
      (.ok entry.data, cache) := by
    rw [hfetch]
    simp only [Svc.getCachedOrFreshData, hent]
    split
    · rfl
    · rfl
  simp only [Svc.getStockPrice, hgc]

theorem svcGetStockPrice_miss_allFail (cache : Svc.DataCacheMap Svc.StockData)
    (now : Int) (nowIso symbol : String) (f : Nat → Svc.QuoteOutcome String)
    (e : Nat → String) (r : Svc.MockRands)
    (hf : ∀ i, i < Svc.maxAttempts → f i = .throwE (e i))
    (hmiss : Svc.dcGet cache ("stock_price_" ++ symbol) = none) :
    Svc.getStockPrice cache now nowIso symbol f r =
      (Svc.generateMockStockPrice symbol nowIso r, cache) := by
  have hfetch := priceFetchFn_allFail f symbol nowIso e hf
  have hgc : Svc.getCachedOrFreshData (fun _ => true) cache now
      ("stock_price_" ++ symbol) (Svc.priceFetchFn f symbol nowIso).1 false =
      (.error (e 2), cache) := by
    rw [hfetch]
    simp only [Svc.getCachedOrFreshData, hmiss]
  simp only [Svc.getStockPrice, hgc]

/-- **C2.**  In `getStockPrice`, whenever the price key holds a previously
stored entry (live or stale) and every retry attempt throws, the resolved
value is exactly the cached value and the cache is left unchanged — the
synthetic fallback is built only when no entry exists under the key. -/
theorem c2_stale_cache_over_synthetic (cache : Svc.DataCacheMap Svc.StockData)
    (now : Int) (nowIso symbol : String) (f : Nat → Svc.QuoteOutcome String)
    (e : Nat → String) (r : Svc.MockRands)
    (hf : ∀ i, i < Svc.maxAttempts → f i = .throwE (e i)) :
    (∀ entry, Svc.dcGet cache ("stock_price_" ++ symbol) = some entry →
      Svc.getStockPrice cache now nowIso symbol f r = (entry.data, cache)) ∧
    (Svc.dcGet cache ("stock_price_" ++ symbol) = none →
      Svc.getStockPrice cache now nowIso symbol f r =
        (Svc.generateMockStockPrice symbol nowIso r, cache)) :=
  ⟨fun entry hent =>
    svcGetStockPrice_hit_allFail cache now nowIso symbol f e r entry hf hent,
   fun hmiss =>
    svcGetStockPrice_miss_allFail cache now nowIso symbol f e r hf hmiss⟩

/-- **C2, witness**: a concrete stale entry under the AAPL price key together
with three throwing attempts resolves to the cached record and leaves the
cache as it was. -/
theorem c2_stale_cache_over_synthetic_witness :
    Svc.getStockPrice
        [("stock_price_AAPL",
          ⟨1000, { symbol := "AAPL", price := 3, previousClose := none,
                   change := none, changePercent := none, volume := none,
                   marketCap := none, lastUpdated := "t0" }⟩)]
        999999999 "t1" "AAPL" (fun _ => .throwE "boom") ⟨0, 0, 0, 0⟩ =
      ({ symbol := "AAPL", price := 3, previousClose := none, change := none,
         changePercent := none, volume := none, marketCap := none,
         lastUpdated := "t0" },
       [("stock_price_AAPL",
         ⟨1000, { symbol := "AAPL", price := 3, previousClose := none,
                  change := none, changePercent := none, volume := none,
                  marketCap := none, lastUpdated := "t0" }⟩)]) :=
  (c2_stale_cache_over_synthetic
      [("stock_price_AAPL",
        ⟨1000, { symbol := "AAPL", price := 3, previousClose := none,
                 change := none, changePercent := none, volume := none,
                 marketCap := none, lastUpdated := "t0" }⟩)]
      999999999 "t1" "AAPL" (fun _ => .throwE "boom") (fun _ => "boom")
      ⟨0, 0, 0, 0⟩ (fun _ _ => rfl)).1
    ⟨1000, { symbol := "AAPL", price := 3, previousClose := none,
             change := none, changePercent := none, volume := none,
             marketCap := none, lastUpdated := "t0" }⟩
    (by decide)

/-! Supporting lemmas about the part_000 retry loop: the `.1` (in-loop
result) and `.2.1` (invocation count) projections do not depend on the
incoming `lastError`, and a failing attempt adds exactly one invocation. -/

theorem p0PriceLoop_proj_le (f : Nat → Part000.P0PriceOutcome)
    (symbol nowIso : String) (now : Int)
    (cache : CacheMap Part000.P0StockPrice) (cacheKey : String)
    (rem attempt : Nat) (le1 le2 : Option String) :
    (Part000.priceLoop f symbol nowIso now cache cacheKey rem attempt le1).1 =
      (Part000.priceLoop f symbol nowIso now cache cacheKey rem attempt le2).1 ∧
    (Part000.priceLoop f symbol nowIso now cache cacheKey rem attempt le1).2.1 =
      (Part000.priceLoop f symbol nowIso now cache cacheKey rem attempt le2).2.1 := by
  cases rem with
  | zero => simp [Part000.priceLoop]
  | succ n =>
    simp only [Part000.priceLoop]
    rcases f attempt with ⟨succ, qs⟩
    cases succ
    · simp
    · cases qs with
      | none => simp
      | some q =>
        rcases hq : q.price with _ | p <;> simp [hq]

theorem p0PriceLoop_fail_proj (f : Nat → Part000.P0PriceOutcome)
    (symbol nowIso : String) (now : Int)
    (cache : CacheMap Part000.P0StockPrice) (cacheKey : String)
    (rem attempt : Nat) (le : Option String)
    (h : (f attempt).isFail = true) :
    (Part000.priceLoop f symbol nowIso now cache cacheKey (rem + 1) attempt le).1 =
      (Part000.priceLoop f symbol nowIso now cache cacheKey rem (attempt + 1) none).1 ∧
    (Part000.priceLoop f symbol nowIso now cache cacheKey (rem + 1) attempt le).2.1 =
      (Part000.priceLoop f symbol nowIso now cache cacheKey rem (attempt + 1) none).2.1
        + 1 := by
  unfold Part000.P0PriceOutcome.isFail at h
  simp only [Part000.priceLoop]
  rcases hfa : f attempt with ⟨succ, qs⟩
  rw [hfa] at h
  cases succ
  · refine ⟨?_, ?_⟩
    · exact (p0PriceLoop_proj_le f symbol nowIso now cache cacheKey rem
        (attempt + 1) (some "获取股票价格信息失败") none).1
    · rw [(p0PriceLoop_proj_le f symbol nowIso now cache cacheKey rem
        (attempt + 1) (some "获取股票价格信息失败") none).2]
  · cases qs with
    | none =>
      refine ⟨?_, ?_⟩
      · exact (p0PriceLoop_proj_le f symbol nowIso now cache cacheKey rem
          (attempt + 1) (some "获取股票价格信息失败") none).1
      · rw [(p0PriceLoop_proj_le f symbol nowIso now cache cacheKey rem
          (attempt + 1) (some "获取股票价格信息失败") none).2]
    | some q =>
      have hnone : q.price = none := Option.isNone_iff_eq_none.mp h
      simp only [hnone]
      refine ⟨?_, ?_⟩
      · exact (p0PriceLoop_proj_le f symbol nowIso now cache cacheKey rem
          (attempt + 1) (some "价格数据不存在") none).1
      · rw [(p0PriceLoop_proj_le f symbol nowIso now cache cacheKey rem
          (attempt + 1) (some "价格数据不存在") none).2]

theorem p0PriceLoop_allFail (f : Nat → Part000.P0PriceOutcome)
    (symbol nowIso : String) (now : Int)
    (cache : CacheMap Part000.P0StockPrice) (cacheKey : String)
    (hf : ∀ i, 1 ≤ i → i ≤ 3 → (f i).isFail = true) :
    (Part000.priceLoop f symbol nowIso now cache cacheKey 3 1 none).1 = none ∧
    (Part000.priceLoop f symbol nowIso now cache cacheKey 3 1 none).2.1 = 3 := by
  have s1 := p0PriceLoop_fail_proj f symbol nowIso now cache cacheKey 2 1 none
    (hf 1 (by decide) (by decide))
  have s2 := p0PriceLoop_fail_proj f symbol nowIso now cache cacheKey 1 2 none
    (hf 2 (by decide) (by decide))
  have s3 := p0PriceLoop_fail_proj f symbol nowIso now cache cacheKey 0 3 none
    (hf 3 (by decide) (by decide))
  have hz : Part000.priceLoop f symbol nowIso now cache cacheKey 0 4 none =
      (none, 0, none) := by simp [Part000.priceLoop]
  refine ⟨?_, ?_⟩
  · rw [s1.1, s2.1, s3.1, hz]
  · rw [s1.2, s2.2, s3.2, hz]

/-- **C6.**  (a) In the service revision's `getStockPrice` retry loop, an
operation that throws on every attempt is invoked exactly
`maxAttempts = 3` times, after which the loop surfaces the last recorded
error; (b) on the first successful attempt `k` the value is returned
immediately, with exactly `k + 1` invocations; (c) in the part_000
revision's loop, an all-failing operation is likewise invoked exactly 3
times before control falls through to the fallback. -/
theorem c6_retry_exhaustion_bound (f : Nat → Svc.QuoteOutcome String)
    (symbol nowIso : String) (e : Nat → String) (k : Nat)
    (q : Svc.YahooQuote) (p0f : Nat → Part000.P0PriceOutcome) (now : Int)
    (p0cache : CacheMap Part000.P0StockPrice) (cacheKey : String) :
    ((∀ i, i < Svc.maxAttempts → f i = .throwE (e i)) →
      Svc.priceFetchFn f symbol nowIso = (.error (e 2), Svc.maxAttempts)) ∧
    ((∀ i, i < k → (f i).isFail = true) → k < Svc.maxAttempts →
      f k = .ok q →
      Svc.priceFetchFn f symbol nowIso =
        (.ok (Svc.toStockData symbol nowIso q), k + 1)) ∧
    ((∀ i, 1 ≤ i → i ≤ 3 → (p0f i).isFail = true) →
      (Part000.priceLoop p0f symbol nowIso now p0cache cacheKey 3 1 none).1 =
          none ∧
      (Part000.priceLoop p0f symbol nowIso now p0cache cacheKey 3 1 none).2.1 =
          3) := by
  refine ⟨?_, ?_, ?_⟩
  · intro hf
    exact priceFetchFn_allFail f symbol nowIso e hf
  · intro hfail hk hsucc
    have hk3 : k < 3 := by simpa [Svc.maxAttempts] using hk
    clear hk
    interval_cases k
    · simp [Svc.priceFetchFn, Svc.maxAttempts, Svc.priceFetchGo, hsucc]
    · have h0 := hfail 0 (by decide)
      rcases hf0 : f 0 with e0 | _ | q0 <;> rw [hf0] at h0 <;>
        simp [Svc.QuoteOutcome.isFail] at h0 <;>
        simp [Svc.priceFetchFn, Svc.maxAttempts, Svc.priceFetchGo, hf0, hsucc]
    · have h0 := hfail 0 (by decide)
      have h1 := hfail 1 (by decide)
      rcases hf0 : f 0 with e0 | _ | q0 <;> rw [hf0] at h0 <;>
          simp [Svc.QuoteOutcome.isFail] at h0 <;>
        rcases hf1 : f 1 with e1 | _ | q1 <;> rw [hf1] at h1 <;>
          simp [Svc.QuoteOutcome.isFail] at h1 <;>
        simp [Svc.priceFetchFn, Svc.maxAttempts, Svc.priceFetchGo, hf0, hf1,
          hsucc]
  · intro hp0
    exact p0PriceLoop_allFail p0f symbol nowIso now p0cache cacheKey hp0

/-- **C6, witness**: three throwing attempts yield exactly three
invocations and the last error; a first-attempt success yields exactly one
invocation; three failing adapted attempts in the part_000 loop yield
exactly three invocations. -/
theorem c6_retry_exhaustion_bound_witness :
    Svc.priceFetchFn (fun i => .throwE (toString i)) "AAPL" "t"
        = (.error "2", Svc.maxAttempts) ∧
    Svc.priceFetchFn (fun _ => .ok ⟨some 1, none, none, none, none, none⟩)
        "AAPL" "t" =
      (.ok (Svc.toStockData "AAPL" "t" ⟨some 1, none, none, none, none, none⟩),
       1) ∧
    ((Part000.priceLoop (fun _ => ⟨false, none⟩) "AAPL" "t" 0 [] "k"
        3 1 none).1 = none ∧
     (Part000.priceLoop (fun _ => ⟨false, none⟩) "AAPL" "t" 0 [] "k"
        3 1 none).2.1 = 3) :=
  ⟨(c6_retry_exhaustion_bound (fun i => .throwE (toString i)) "AAPL" "t"
      toString 0 ⟨some 1, none, none, none, none, none⟩
      (fun _ => ⟨false, none⟩) 0 [] "k").1 (fun _ _ => rfl),
   (c6_retry_exhaustion_bound (fun _ => .ok ⟨some 1, none, none, none, none, none⟩)
      "AAPL" "t" toString 0 ⟨some 1, none, none, none, none, none⟩
      (fun _ => ⟨false, none⟩) 0 [] "k").2.1
     (fun i hi => absurd hi (by omega)) (by decide) rfl,
   (c6_retry_exhaustion_bound (fun i => .throwE (toString i)) "AAPL" "t"
      toString 0 ⟨some 1, none, none, none, none, none⟩
      (fun _ => ⟨false, none⟩) 0 [] "k").2.2 (fun _ _ _ => rfl)⟩

/-! Supporting lemmas about the part_000 summary retry loop. -/

theorem summaryLoop_proj_le {σ : Type} (f : Nat → Part000.P0SummaryOutcome σ)
    (symbol nowIso : String) (now : Int)
    (cache : CacheMap (Part000.P0Summary σ)) (cacheKey : String)
    (rem attempt : Nat) (le1 le2 : Option String) :
    (Part000.summaryLoop f symbol nowIso now cache cacheKey rem attempt le1).1 =
      (Part000.summaryLoop f symbol nowIso now cache cacheKey rem attempt le2).1 ∧
    (Part000.summaryLoop f symbol nowIso now cache cacheKey rem attempt le1).2.1 =
      (Part000.summaryLoop f symbol nowIso now cache cacheKey rem attempt le2).2.1 := by
  cases rem with
  | zero => simp [Part000.summaryLoop]
  | succ n =>
    simp only [Part000.summaryLoop]
    rcases f attempt with ⟨succ, qs⟩
    cases succ
    · simp
    · cases qs with
      | none => simp
      | some q => simp

theorem summaryLoop_fail_proj {σ : Type} (f : Nat → Part000.P0SummaryOutcome σ)
    (symbol nowIso : String) (now : Int)
    (cache : CacheMap (Part000.P0Summary σ)) (cacheKey : String)
    (rem attempt : Nat) (le : Option String)
    (h : (f attempt).success = false ∨ (f attempt).quoteSummary = none) :
    (Part000.summaryLoop f symbol nowIso now cache cacheKey (rem + 1) attempt le).1 =
      (Part000.summaryLoop f symbol nowIso now cache cacheKey rem (attempt + 1) none).1 ∧
    (Part000.summaryLoop f symbol nowIso now cache cacheKey (rem + 1) attempt le).2.1 =
      (Part000.summaryLoop f symbol nowIso now cache cacheKey rem (attempt + 1) none).2.1
        + 1 := by
  simp only [Part000.summaryLoop]
  rcases hfa : f attempt with ⟨succ, qs⟩
  rw [hfa] at h
  cases succ
  · refine ⟨?_, ?_⟩
    · exact (summaryLoop_proj_le f symbol nowIso now cache cacheKey rem
        (attempt + 1) (some "获取股票摘要信息失败") none).1
    · rw [(summaryLoop_proj_le f symbol nowIso now cache cacheKey rem
        (attempt + 1) (some "获取股票摘要信息失败") none).2]
  · cases qs with
    | none =>
      refine ⟨?_, ?_⟩
      · exact (summaryLoop_proj_le f symbol nowIso now cache cacheKey rem
          (attempt + 1) (some "获取股票摘要信息失败") none).1
      · rw [(summaryLoop_proj_le f symbol nowIso now cache cacheKey rem
          (attempt + 1) (some "获取股票摘要信息失败") none).2]
    | some q =>
      simp at h

theorem summaryLoop_allFail {σ : Type} (f : Nat → Part000.P0SummaryOutcome σ)
    (symbol nowIso : String) (now : Int)
    (cache : CacheMap (Part000.P0Summary σ)) (cacheKey : String)
    (hf : ∀ i, 1 ≤ i → i ≤ 3 →
      (f i).success = false ∨ (f i).quoteSummary = none) :
    (Part000.summaryLoop f symbol nowIso now cache cacheKey 3 1 none).1 = none ∧
    (Part000.summaryLoop f symbol nowIso now cache cacheKey 3 1 none).2.1 = 3 := by
  have s1 := summaryLoop_fail_proj f symbol nowIso now cache cacheKey 2 1 none
    (hf 1 (by decide) (by decide))
  have s2 := summaryLoop_fail_proj f symbol nowIso now cache cacheKey 1 2 none
    (hf 2 (by decide) (by decide))
  have s3 := summaryLoop_fail_proj f symbol nowIso now cache cacheKey 0 3 none
    (hf 3 (by decide) (by decide))
  have hz : Part000.summaryLoop f symbol nowIso now cache cacheKey 0 4 none =
      (none, 0, none) := by simp [Part000.summaryLoop]
  refine ⟨?_, ?_⟩
  · rw [s1.1, s2.1, s3.1, hz]
  · rw [s1.2, s2.2, s3.2, hz]

theorem cacheHas_of_mapGet_none {α : Type} (now : Int) (c : CacheMap α)
    (k : String) (h : mapGet c k = none) : cacheHas now c k = (false, c) := by
  simp [cacheHas, h]

/-- **C4.**  With no cached summary under the key and an upstream that fails
on every attempt, `getStockSummary` rejects with
`` `无法获取${symbol}的股票摘要信息` `` — a message naming the symbol — after
exactly three attempts, leaves the cache unchanged, and produces no summary
value (synthetic or otherwise). -/
theorem c4_summary_throws_on_exhaustion {σ : Type}
    (cache : CacheMap (Part000.P0Summary σ)) (now : Int)
    (nowIso symbol : String) (f : Nat → Part000.P0SummaryOutcome σ)
    (hmiss : mapGet cache ("stock_summary_" ++ symbol) = none)
    (hf : ∀ i, 1 ≤ i → i ≤ 3 →
      (f i).success = false ∨ (f i).quoteSummary = none) :
    Part000.getStockSummary cache now nowIso symbol f =
      (.error ("无法获取" ++ symbol ++ "的股票摘要信息"), cache, 3) ∧
    (∀ v, (Part000.getStockSummary cache now nowIso symbol f).1 ≠ .ok v) ∧
    ∃ pre post,
      "无法获取" ++ symbol ++ "的股票摘要信息" = pre ++ symbol ++ post := by
  have hhas := cacheHas_of_mapGet_none now cache ("stock_summary_" ++ symbol)
    hmiss
  have hall := summaryLoop_allFail f symbol nowIso now cache
    ("stock_summary_" ++ symbol) hf
  have hmain : Part000.getStockSummary cache now nowIso symbol f =
      (.error ("无法获取" ++ symbol ++ "的股票摘要信息"), cache, 3) := by
    simp only [Part000.getStockSummary, hhas]
    rcases hlp : Part000.summaryLoop f symbol nowIso now cache
        ("stock_summary_" ++ symbol) 3 1 none with ⟨res, cnt, le⟩
    rw [hlp] at hall
    simp only at hall
    rw [hall.1, hall.2]
  refine ⟨hmain, ?_, ⟨"无法获取", "的股票摘要信息", rfl⟩⟩
  intro v
  rw [hmain]
  simp

/-- **C4, witness**: the concrete exhaustion run for `"AAPL"` on an empty
cache rejects with the message naming the symbol. -/
theorem c4_summary_throws_on_exhaustion_witness :
    Part000.getStockSummary ([] : CacheMap (Part000.P0Summary Nat)) 0 "t"
        "AAPL" (fun _ => ⟨false, none⟩) =
      (.error ("无法获取" ++ "AAPL" ++ "的股票摘要信息"), [], 3) :=
  (c4_summary_throws_on_exhaustion ([] : CacheMap (Part000.P0Summary Nat)) 0
      "t" "AAPL" (fun _ => ⟨false, none⟩) rfl
      (fun _ _ _ => Or.inl rfl)).1

theorem p0GetStockPrice_miss_allFail (cache : CacheMap Part000.P0StockPrice)
    (now : Int) (nowIso symbol : String) (f : Nat → Part000.P0PriceOutcome)
    (r : Svc.MockRands)
    (hf : ∀ i, 1 ≤ i → i ≤ 3 → (f i).isFail = true)
    (hmiss : mapGet cache ("stock_price_" ++ symbol) = none) :
    Part000.getStockPrice cache now nowIso symbol f r =
      (Part000.mockStockPrice symbol nowIso r, cache, 3) := by
  have hhas := cacheHas_of_mapGet_none now cache ("stock_price_" ++ symbol)
    hmiss
  have hall := p0PriceLoop_allFail f symbol nowIso now cache
    ("stock_price_" ++ symbol) hf
  simp only [Part000.getStockPrice, hhas]
  rcases hlp : Part000.priceLoop f symbol nowIso now cache
      ("stock_price_" ++ symbol) 3 1 none with ⟨res, cnt, le⟩
  rw [hlp] at hall
  simp only at hall
  rw [hall.1, hall.2]

/-! Field-presence lemmas for the service `StockData` shape. -/

theorem generateMockStockPrice_definedFields (symbol nowIso : String)
    (r : Svc.MockRands) :
    (Svc.generateMockStockPrice symbol nowIso r).definedFields =
      Svc.allStockDataFields := by
  simp only [Svc.generateMockStockPrice, Svc.StockData.definedFields,
    Svc.allStockDataFields]
  rfl

theorem definedFields_subset_all (d : Svc.StockData) :
    d.definedFields ⊆ Svc.allStockDataFields := by
  rcases d with ⟨s, p, pc, ch, cp, vol, mc, lu⟩
  cases pc <;> cases ch <;> cases cp <;> cases vol <;> cases mc <;>
    simp [Svc.StockData.definedFields, Svc.allStockDataFields,
      List.subset_def]

theorem generateMockStockPrice_price_pos (symbol nowIso : String)
    (r : Svc.MockRands) (hr : r.inRange) :
    0 < (Svc.generateMockStockPrice symbol nowIso r).price := by
  obtain ⟨hb, -⟩ := hr
  simp only [Svc.generateMockStockPrice]
  split <;> simp only [] <;> linarith

theorem p0MockStockPrice_price_pos (symbol nowIso : String)
    (r : Svc.MockRands) (hr : r.inRange) :
    0 < (Part000.mockStockPrice symbol nowIso r).price := by
  obtain ⟨hb, -⟩ := hr
  simp only [Part000.mockStockPrice]
  linarith

/-- **C7.**  For the price kind, the synthetic record defines every
`StockData` field, so the field set of any real successful record — and in
particular the fields a real record is guaranteed to populate — is a subset
of the synthetic record's fields. -/
theorem c7_fallback_field_superset (symbol nowIso nowIso2 : String)
    (quote : Svc.YahooQuote) (r : Svc.MockRands) :
    (Svc.generateMockStockPrice symbol nowIso2 r).definedFields =
      Svc.allStockDataFields ∧
    (Svc.toStockData symbol nowIso quote).definedFields ⊆
      (Svc.generateMockStockPrice symbol nowIso2 r).definedFields := by
  refine ⟨generateMockStockPrice_definedFields symbol nowIso2 r, ?_⟩
  rw [generateMockStockPrice_definedFields symbol nowIso2 r]
  exact definedFields_subset_all _

/-- **C3, counterexample.**  With an empty cache and an upstream that throws
on every attempt, the service revision's `getStockPrice` resolves to a
record whose defined fields are exactly the eight `StockData` fields — it
carries no `isMock`, `warning`, or even `mock` marker, contradicting the
claim that the fallback result carries an `isMock`/`warning` marker. -/
theorem c3_marker_counterexample :
    (Svc.getStockPrice [] 0 "t" "AAPL" (fun _ => .throwE "down")
        ⟨1/2, 1/2, 1/2, 1/2⟩).1.definedFields = Svc.allStockDataFields ∧
    "isMock" ∉ (Svc.getStockPrice [] 0 "t" "AAPL" (fun _ => .throwE "down")
        ⟨1/2, 1/2, 1/2, 1/2⟩).1.definedFields ∧
    "warning" ∉ (Svc.getStockPrice [] 0 "t" "AAPL" (fun _ => .throwE "down")
        ⟨1/2, 1/2, 1/2, 1/2⟩).1.definedFields ∧
    "mock" ∉ (Svc.getStockPrice [] 0 "t" "AAPL" (fun _ => .throwE "down")
        ⟨1/2, 1/2, 1/2, 1/2⟩).1.definedFields := by
  decide

/-- **C3, amended.**  `getStockPrice` always resolves, and under a total
upstream failure with a cold cache it resolves to the synthetic record with
every `StockData` field populated and a positive finite price; the marker
differs per revision: the part_000 revision marks the record with
`mock: true`, while the service revision returns the synthetic record with
no marker field at all. -/
theorem c3_always_resolves_amended (cache : Svc.DataCacheMap Svc.StockData)
    (now : Int) (nowIso symbol : String) (f : Nat → Svc.QuoteOutcome String)
    (e : Nat → String) (r : Svc.MockRands)
    (p0cache : CacheMap Part000.P0StockPrice)
    (p0f : Nat → Part000.P0PriceOutcome)
    (hf : ∀ i, i < Svc.maxAttempts → f i = .throwE (e i))
    (hr : r.inRange)
    (hmiss : Svc.dcGet cache ("stock_price_" ++ symbol) = none)
    (hp0f : ∀ i, 1 ≤ i → i ≤ 3 → (p0f i).isFail = true)
    (hp0miss : mapGet p0cache ("stock_price_" ++ symbol) = none) :
    (Svc.getStockPrice cache now nowIso symbol f r).1 =
        Svc.generateMockStockPrice symbol nowIso r ∧
    (Svc.getStockPrice cache now nowIso symbol f r).1.definedFields =
        Svc.allStockDataFields ∧
    0 < (Svc.getStockPrice cache now nowIso symbol f r).1.price ∧
    (Part000.getStockPrice p0cache now nowIso symbol p0f r).1 =
        Part000.mockStockPrice symbol nowIso r ∧
    (Part000.getStockPrice p0cache now nowIso symbol p0f r).1.mock =
        some true ∧
    0 < (Part000.getStockPrice p0cache now nowIso symbol p0f r).1.price := by
  have hsvc := svcGetStockPrice_miss_allFail cache now nowIso symbol f e r hf
    hmiss
  have hp0 := p0GetStockPrice_miss_allFail p0cache now nowIso symbol p0f r
    hp0f hp0miss
  rw [hsvc, hp0]
  exact ⟨rfl, generateMockStockPrice_definedFields symbol nowIso r,
    generateMockStockPrice_price_pos symbol nowIso r hr, rfl, rfl,
    p0MockStockPrice_price_pos symbol nowIso r hr⟩

/-- **C3, witness** for the amended theorem at a concrete total failure. -/
theorem c3_always_resolves_amended_witness :
    (Svc.getStockPrice [] 5 "t" "MSFT" (fun _ => .throwE "down")
        ⟨1/2, 1/2, 1/2, 1/2⟩).1 =
      Svc.generateMockStockPrice "MSFT" "t" ⟨1/2, 1/2, 1/2, 1/2⟩ ∧
    0 < (Part000.getStockPrice [] 5 "t" "MSFT" (fun _ => ⟨false, none⟩)
        ⟨1/2, 1/2, 1/2, 1/2⟩).1.price :=
  ⟨(c3_always_resolves_amended [] 5 "t" "MSFT" (fun _ => .throwE "down")
      (fun _ => "down") ⟨1/2, 1/2, 1/2, 1/2⟩ [] (fun _ => ⟨false, none⟩)
      (fun _ _ => rfl) (by norm_num [Svc.MockRands.inRange]) rfl
      (fun _ _ _ => rfl) rfl).1,
   (c3_always_resolves_amended [] 5 "t" "MSFT" (fun _ => .throwE "down")
      (fun _ => "down") ⟨1/2, 1/2, 1/2, 1/2⟩ [] (fun _ => ⟨false, none⟩)
      (fun _ _ => rfl) (by norm_num [Svc.MockRands.inRange]) rfl
      (fun _ _ _ => rfl) rfl).2.2.2.2.2⟩

/-- **C10.**  When the price fetch exhausts all attempts and the cache holds
no entry under the price key, neither revision writes the synthetic record
to the cache: the service revision returns the mock with the cache exactly
as it was (the following lookup still misses), and the part_000 revision
returns its mock alongside the untouched cache. -/
theorem c10_no_cache_write_on_total_failure
    (cache : Svc.DataCacheMap Svc.StockData) (now : Int)
    (nowIso symbol : String) (f : Nat → Svc.QuoteOutcome String)
    (e : Nat → String) (r : Svc.MockRands)
    (p0cache : CacheMap Part000.P0StockPrice)
    (p0f : Nat → Part000.P0PriceOutcome)
    (hf : ∀ i, i < Svc.maxAttempts → f i = .throwE (e i))
    (hmiss : Svc.dcGet cache ("stock_price_" ++ symbol) = none)
    (hp0f : ∀ i, 1 ≤ i → i ≤ 3 → (p0f i).isFail = true)
    (hp0miss : mapGet p0cache ("stock_price_" ++ symbol) = none) :
    Svc.getStockPrice cache now nowIso symbol f r =
      (Svc.generateMockStockPrice symbol nowIso r, cache) ∧
    Svc.dcGet (Svc.getStockPrice cache now nowIso symbol f r).2
      ("stock_price_" ++ symbol) = none ∧
    Part000.getStockPrice p0cache now nowIso symbol p0f r =
      (Part000.mockStockPrice symbol nowIso r, p0cache, 3) ∧
    mapGet (Part000.getStockPrice p0cache now nowIso symbol p0f r).2.1
      ("stock_price_" ++ symbol) = none := by
  have hsvc := svcGetStockPrice_miss_allFail cache now nowIso symbol f e r hf
    hmiss
  have hp0 := p0GetStockPrice_miss_allFail p0cache now nowIso symbol p0f r
    hp0f hp0miss
  rw [hsvc, hp0]
  exact ⟨rfl, hmiss, rfl, hp0miss⟩

/-- **C10, witness**: the concrete total-failure run leaves the empty cache
empty in both revisions. -/
theorem c10_no_cache_write_on_total_failure_witness :
    Svc.getStockPrice [] 7 "t" "TSLA" (fun _ => .throwE "down") ⟨0, 0, 0, 0⟩ =
      (Svc.generateMockStockPrice "TSLA" "t" ⟨0, 0, 0, 0⟩, []) ∧
    Part000.getStockPrice [] 7 "t" "TSLA" (fun _ => ⟨true, none⟩)
        ⟨0, 0, 0, 0⟩ =
      (Part000.mockStockPrice "TSLA" "t" ⟨0, 0, 0, 0⟩, [], 3) :=
  ⟨(c10_no_cache_write_on_total_failure [] 7 "t" "TSLA"
      (fun _ => .throwE "down") (fun _ => "down") ⟨0, 0, 0, 0⟩ []
      (fun _ => ⟨true, none⟩) (fun _ _ => rfl) rfl (fun _ _ _ => rfl)
      rfl).1,
   (c10_no_cache_write_on_total_failure [] 7 "t" "TSLA"
      (fun _ => .throwE "down") (fun _ => "down") ⟨0, 0, 0, 0⟩ []
      (fun _ => ⟨true, none⟩) (fun _ _ => rfl) rfl (fun _ _ _ => rfl)
      rfl).2.2.1⟩

/-- **C8.**  `adaptedQuoteSummary` filters the requested modules against the
fixed allow-list `VALID_MODULES` — a module survives exactly when it was
requested and is allow-listed, so unknown names are silently dropped — and
when the filtered list is empty it returns the `success:false` object
without contacting upstream (the call flag is `false` and the result does
not depend on `upstream`). -/
theorem c8_module_allowlist {π : Type} (symbol : String)
    (modules : List String)
    (upstream : String → List String → Except String π) :
    (∀ m, m ∈ modules.filter (fun m => Adapter.VALID_MODULES.contains m) ↔
      m ∈ modules ∧ m ∈ Adapter.VALID_MODULES) ∧
    (modules.filter (fun m => Adapter.VALID_MODULES.contains m) = [] →
      Adapter.adaptedQuoteSummary symbol modules upstream =
        ({ success := false, error := some "无有效模块名称",
           quoteSummary := none }, false)) := by
  constructor
  · intro m
    simp [List.mem_filter]
  · intro h
    simp only [Adapter.adaptedQuoteSummary, h]
    simp

/-- **C8, witness**: a request whose only module is unknown is filtered to
the empty list and fails without an upstream call. -/
theorem c8_module_allowlist_witness :
    ["bogusModule"].filter
        (fun m => Adapter.VALID_MODULES.contains m) = [] ∧
    Adapter.adaptedQuoteSummary "AAPL" ["bogusModule"]
        (fun _ _ => (.ok 0 : Except String Nat)) =
      ({ success := false, error := some "无有效模块名称",
         quoteSummary := none }, false) :=
  ⟨by decide,
   (c8_module_allowlist "AAPL" ["bogusModule"]
      (fun _ _ => (.ok 0 : Except String Nat))).2 (by decide)⟩

/-! Supporting lemmas for the mock chart generator. -/

theorem chartBasePrice_ge (symbol : String) :
    (150 : ℚ) ≤ MockChart.chartBasePrice symbol := by
  unfold MockChart.chartBasePrice
  split
  · norm_num
  · split
    · norm_num
    · split <;> norm_num

theorem mockChartGo_length (basePrice : ℚ) (interval : String)
    (rands : Nat → MockChart.ChartRands) :
    ∀ n i p ts, (MockChart.mockChartGo basePrice interval rands n i p ts).length
      = n := by
  intro n
  induction n with
  | zero => intro i p ts; simp [MockChart.mockChartGo]
  | succ m ih =>
    intro i p ts
    simp [MockChart.mockChartGo, ih]

theorem mockChartStep_sound (basePrice : ℚ) (interval : String) (p : ℚ)
    (ts : Int) (r : MockChart.ChartRands) (hp : 1 ≤ p) (hr : r.inRange) :
    ((MockChart.mockChartStep basePrice interval p ts r).1.low ≤
        min (MockChart.mockChartStep basePrice interval p ts r).1.openP
          (MockChart.mockChartStep basePrice interval p ts r).1.close ∧
      max (MockChart.mockChartStep basePrice interval p ts r).1.openP
          (MockChart.mockChartStep basePrice interval p ts r).1.close ≤
        (MockChart.mockChartStep basePrice interval p ts r).1.high) ∧
    1 ≤ (MockChart.mockChartStep basePrice interval p ts r).2.1 := by
  obtain ⟨hc0, hc1, hh0, hh1, hl0, hl1, hv0, hv1⟩ := hr
  simp only [MockChart.mockChartStep]
  set change := (r.rChange * 2 - 1) * MockChart.volatility * p +
    p * MockChart.trend with hchange
  set p1 := p + change with hp1
  have hp2 : (1 : ℚ) ≤ if p1 < 1 then 1 else p1 := by
    split
    · exact le_refl 1
    · exact le_of_not_lt (by assumption)
  have hopen : 0 ≤ (if p1 < 1 then (1 : ℚ) else p1) - change / 2 := by
    rcases le_or_lt change 0 with hle | hgt
    · linarith
    · have hnl : ¬ p1 < 1 := by
        rw [hp1]
        push_neg
        linarith
      rw [if_neg hnl, hp1]
      linarith
  set p2 := if p1 < 1 then (1 : ℚ) else p1 with hp2def
  have hclose : (0 : ℚ) ≤ p2 := by linarith
  have hmin0 : 0 ≤ min (p2 - change / 2) p2 := le_min hopen hclose
  have hmax0 : 0 ≤ max (p2 - change / 2) p2 := le_trans hmin0 min_le_max
  refine ⟨⟨?_, ?_⟩, hp2⟩
  · have hfac : 1 - r.rLow * (1 / 100) ≤ 1 := by
      have : 0 ≤ r.rLow * (1 / 100) := by positivity
      linarith
    calc min (p2 - change / 2) p2 * (1 - r.rLow * (1 / 100))
        ≤ min (p2 - change / 2) p2 * 1 :=
          mul_le_mul_of_nonneg_left hfac hmin0
      _ = min (p2 - change / 2) p2 := mul_one _
  · have hfac : (1 : ℚ) ≤ 1 + r.rHigh * (1 / 100) := by
      have : 0 ≤ r.rHigh * (1 / 100) := by positivity
      linarith
    calc max (p2 - change / 2) p2
        = max (p2 - change / 2) p2 * 1 := (mul_one _).symm
      _ ≤ max (p2 - change / 2) p2 * (1 + r.rHigh * (1 / 100)) :=
          mul_le_mul_of_nonneg_left hfac hmax0

theorem mockChartGo_sound (basePrice : ℚ) (interval : String)
    (rands : Nat → MockChart.ChartRands)
    (hr : ∀ i, (rands i).inRange) :
    ∀ n i p ts, 1 ≤ p →
      ∀ pt ∈ MockChart.mockChartGo basePrice interval rands n i p ts,
        pt.low ≤ min pt.openP pt.close ∧ max pt.openP pt.close ≤ pt.high := by
  intro n
  induction n with
  | zero => intro i p ts hp pt hpt; simp [MockChart.mockChartGo] at hpt
  | succ m ih =>
    intro i p ts hp pt hpt
    have hstep := mockChartStep_sound basePrice interval p ts (rands i) hp
      (hr i)
    simp only [MockChart.mockChartGo, List.mem_cons] at hpt
    rcases hpt with hpt | hpt
    · rw [hpt]
      exact hstep.1
    · exact ih (i + 1) _ _ hstep.2 pt hpt

theorem startPrice_ge_one (symbol : String) (r0 : ℚ) (h0 : 0 ≤ r0)
    (h1 : r0 < 1) :
    (1 : ℚ) ≤ MockChart.chartBasePrice symbol -
      MockChart.chartBasePrice symbol * (1 / 5) * r0 := by
  have hb := chartBasePrice_ge symbol
  have hmul : MockChart.chartBasePrice symbol * (1 / 5) * r0 ≤
      MockChart.chartBasePrice symbol * (1 / 5) * 1 := by
    apply mul_le_mul_of_nonneg_left (le_of_lt h1)
    positivity
  nlinarith

/-- **C9.**  `generateMockChartData` produces six parallel arrays of equal
length, the length fixed by the requested range (`22` points for
`range = "1mo"`), and — for `Math.random()` draws in `[0, 1)` — every
generated point satisfies `low ≤ min(open, close)` and
`max(open, close) ≤ high`. -/
theorem c9_mock_chart_shape (symbol interval range : String) (startTs : Int)
    (r0 : ℚ) (rands : Nat → MockChart.ChartRands)
    (h0 : 0 ≤ r0) (h1 : r0 < 1) (hr : ∀ i, (rands i).inRange) :
    (MockChart.generateMockChartData symbol interval range startTs r0
        rands).timestamp.length = MockChart.pointCount range ∧
    (MockChart.generateMockChartData symbol interval range startTs r0
        rands).openA.length = MockChart.pointCount range ∧
    (MockChart.generateMockChartData symbol interval range startTs r0
        rands).close.length = MockChart.pointCount range ∧
    (MockChart.generateMockChartData symbol interval range startTs r0
        rands).high.length = MockChart.pointCount range ∧
    (MockChart.generateMockChartData symbol interval range startTs r0
        rands).low.length = MockChart.pointCount range ∧
    (MockChart.generateMockChartData symbol interval range startTs r0
        rands).volume.length = MockChart.pointCount range ∧
    MockChart.pointCount "1mo" = 22 ∧
    ∀ pt ∈ MockChart.generateMockChartPoints symbol interval range startTs
        r0 rands,
      pt.low ≤ min pt.openP pt.close ∧ max pt.openP pt.close ≤ pt.high := by
  have hlen := mockChartGo_length (MockChart.chartBasePrice symbol) interval
    rands
  have hsound := mockChartGo_sound (MockChart.chartBasePrice symbol) interval
    rands hr (MockChart.pointCount range) 0
    (MockChart.chartBasePrice symbol -
      MockChart.chartBasePrice symbol * (1 / 5) * r0) startTs
    (startPrice_ge_one symbol r0 h0 h1)
  refine ⟨?_, ?_, ?_, ?_, ?_, ?_, rfl, ?_⟩
  · simp only [MockChart.generateMockChartData,
      MockChart.generateMockChartPoints, List.length_map, hlen]
  · simp only [MockChart.generateMockChartData,
      MockChart.generateMockChartPoints, List.length_map, hlen]
  · simp only [MockChart.generateMockChartData,
      MockChart.generateMockChartPoints, List.length_map, hlen]
  · simp only [MockChart.generateMockChartData,
      MockChart.generateMockChartPoints, List.length_map, hlen]
  · simp only [MockChart.generateMockChartData,
      MockChart.generateMockChartPoints, List.length_map, hlen]
  · simp only [MockChart.generateMockChartData,
      MockChart.generateMockChartPoints, List.length_map, hlen]
  · intro pt hpt
    simp only [MockChart.generateMockChartPoints] at hpt
    exact hsound pt hpt

/-- **C9, witness**: the concrete 1-month AAPL mock chart has 22 points in
every array and point 0 is internally consistent. -/
theorem c9_mock_chart_shape_witness :
    (MockChart.generateMockChartData "AAPL" "1d" "1mo" 0 0
        (fun _ => ⟨0, 0, 0, 0⟩)).timestamp.length =
      MockChart.pointCount "1mo" ∧ MockChart.pointCount "1mo" = 22 :=
  ⟨(c9_mock_chart_shape "AAPL" "1d" "1mo" 0 0 (fun _ => ⟨0, 0, 0, 0⟩)
      (by norm_num) (by norm_num)
      (fun _ => by norm_num [MockChart.ChartRands.inRange])).1,
   (c9_mock_chart_shape "AAPL" "1d" "1mo" 0 0 (fun _ => ⟨0, 0, 0, 0⟩)
      (by norm_num) (by norm_num)
      (fun _ => by norm_num [MockChart.ChartRands.inRange])).2.2.2.2.2.2.1⟩

end StockApi
